import Mathlib

/-!
# Verification of the 5-stage RISC-V pipeline visualizer and the
# hardware-emulation performance/energy model

Shallow embedding of the two algorithmic cores of the repository:

* the `PipelineVisualizer` component's instruction-level 5-stage pipeline
  simulator (`resetSimulationState`, `isFinished`, `hazardMessage`,
  `clockTick` and the operand-forwarding closure `getValue` inside it);
* the `HardwareEmulation` component's cycle/energy estimation model
  (the `sim` closure and the derived metrics inside the `results` memo).

JavaScript numbers are modelled as `Int` for the architectural simulator
(all values reached by the verified programs are exact small integers) and
as `ℚ` for the performance model; the final ratio metrics, where the code
can produce `NaN`/`Infinity`, are modelled by `JSNum` with a faithful
JavaScript division `jsDiv`.
-/

namespace PipelineSim

/-- A parsed instruction record, as produced by `parseAssembly`:
fields `raw`, `op`, `rd`, `rs1`, `rs2`, `imm`, `pc` (the UI-only `color`
field is omitted).  Missing operand fields are `none` (JS `undefined`). -/
structure Instruction where
  raw : String
  op : String
  rd : Option Nat := none
  rs1 : Option Nat := none
  rs2 : Option Nat := none
  imm : Option Int := none
  pc : Nat := 0
deriving DecidableEq, Repr

/-- One pipeline stage register: `{instr, pc, isStall?, isFlush?, result?, address?}`. -/
structure Stage where
  instr : Option Instruction := none
  pc : Option Nat := none
  isStall : Bool := false
  isFlush : Bool := false
  result : Option Int := none
  address : Option Int := none
deriving DecidableEq, Repr

/-- The empty stage record `{ instr: null, pc: null }`. -/
def emptyStage : Stage := {}

/-- Type of a data-memory access highlight (`'read'`/`'write'`). -/
inductive MemAccessType where
  | read
  | write
deriving DecidableEq, Repr

/-- Whole simulation state of the pipeline visualizer: program counter,
cycle counter, the five stage registers, register file, sparse data
memory (association list, newest binding first), plus the two
observability fields `lastWrittenReg` and `memoryAccessStatus`. -/
structure SimState where
  pc : Nat
  cycle : Nat
  pif : Stage
  pid : Stage
  pex : Stage
  pmem : Stage
  pwb : Stage
  registerFile : List Int
  dataMemory : List (Int × Int)
  lastWrittenReg : Option Nat
  memoryAccessStatus : Option (Int × MemAccessType)
deriving DecidableEq, Repr

/-- JS object write `m[a] = v`: replace/insert the binding for `a`. -/
def memWrite (m : List (Int × Int)) (a v : Int) : List (Int × Int) :=
  (a, v) :: m.filter (fun p => p.1 ≠ a)

/-- JS read `m[a] || 0` (unset address, like a stored 0, reads as 0). -/
def memRead (m : List (Int × Int)) (a : Int) : Int :=
  (m.lookup a).getD 0

/-- `resetSimulationState`: cycle 0, pc 0, empty pipeline, 32 registers
all zero except `x1 = 256`, data memory `{256: 42}`. -/
def resetState : SimState where
  pc := 0
  cycle := 0
  pif := emptyStage
  pid := emptyStage
  pex := emptyStage
  pmem := emptyStage
  pwb := emptyStage
  registerFile := (List.range 32).map (fun i => if i = 1 then (256 : Int) else 0)
  dataMemory := [(256, 42)]
  lastWrittenReg := none
  memoryAccessStatus := none

/-- `isFinished`: the pc has advanced past the end of the instruction list
and every pipeline stage holds no instruction. -/
def isFinished (instructions : List Instruction) (s : SimState) : Bool :=
  decide (instructions.length ≤ s.pc) &&
    (s.pif.instr.isNone && s.pid.instr.isNone && s.pex.instr.isNone &&
      s.pmem.instr.isNone && s.pwb.instr.isNone)

/-- Does the optional instruction's destination equal register `n`?
(JS `instr?.rd === regNum`, with `regNum` a number.) -/
def instrRdIs (oi : Option Instruction) (n : Nat) : Bool :=
  match oi with
  | some i => i.rd == some n
  | none => false

/-- The operand-forwarding closure `getValue` of `clockTick`: return 0 for
`x0`/missing operand, otherwise try the Memory-stage pipeline register,
then the Execute-stage pipeline register, then the writeback value (in
the source, `wb_instr`/`wb_result` are aliases of `pipeline.mem`), and
finally fall back to the committed register file. -/
def getValue (s : SimState) (regNum : Option Nat) : Int :=
  match regNum with
  | none => 0
  | some n =>
    if n = 0 then 0
    else if instrRdIs s.pmem.instr n && s.pmem.result.isSome then (s.pmem.result).getD 0
    else if instrRdIs s.pex.instr n && s.pex.result.isSome then (s.pex.result).getD 0
    else if instrRdIs s.pmem.instr n && s.pmem.result.isSome then (s.pmem.result).getD 0
    else (s.registerFile.get? n).getD 0

/-- Split a character list into maximal space-free runs (the behaviour of
the JS regex split `/\s+/` on a trimmed line). -/
def tokenizeAux : List Char → List Char → List String
  | [], acc => if acc.isEmpty then [] else [String.mk acc.reverse]
  | c :: rest, acc =>
    if c = ' ' then
      if acc.isEmpty then tokenizeAux rest []
      else String.mk acc.reverse :: tokenizeAux rest []
    else tokenizeAux rest (c :: acc)

/-- JS `raw.split(/\s+/).pop() || ''` on a trimmed line: the last
whitespace-separated token of the raw instruction text. -/
def lastToken (s : String) : String :=
  ((tokenizeAux s.data []).getLast?).getD ""

/-- Output of the Execute-stage switch: computed result, computed memory
address, the (possibly overridden) next program counter and the
branch-taken flag. -/
structure ExecOut where
  result : Option Int := none
  address : Option Int := none
  newPc : Nat
  branchTaken : Bool := false
deriving DecidableEq, Repr

/-- The Execute-stage `switch (id_instr_for_ex.op)` of `clockTick`,
acting on the instruction that is leaving Decode.  Operands are resolved
through `getValue` on the previous cycle's state. -/
def executeInstr (labels : List (String × Nat)) (s : SimState) (idi : Instruction) :
    ExecOut :=
  let val1 := getValue s idi.rs1
  let val2 := getValue s idi.rs2
  if idi.op = "add" then { result := some (val1 + val2), newPc := s.pc }
  else if idi.op = "sub" then { result := some (val1 - val2), newPc := s.pc }
  else if idi.op = "addi" then { result := some (val1 + idi.imm.getD 0), newPc := s.pc }
  else if idi.op = "lw" then { address := some (val1 + idi.imm.getD 0), newPc := s.pc }
  else if idi.op = "sw" then
    { address := some (val1 + idi.imm.getD 0), result := some val2, newPc := s.pc }
  else if idi.op = "beq" then
    if val1 = val2 then
      { newPc := (labels.lookup (lastToken idi.raw)).getD s.pc, branchTaken := true }
    else { newPc := s.pc }
  else if idi.op = "jal" then
    { result := some (Int.ofNat (idi.pc + 1)),
      newPc := (labels.lookup (lastToken idi.raw)).getD s.pc, branchTaken := true }
  else { newPc := s.pc }

/-- The load-use hazard test at the top of the Execute step of `clockTick`:
the instruction in Execute is a `lw`, its destination is defined and not
`x0`, and the instruction in Decode reads it as `rs1` or `rs2`. -/
def loadUseStall (s : SimState) : Bool :=
  match s.pex.instr, s.pid.instr with
  | some exi, some idi =>
    exi.op == "lw" && exi.rd != some 0 && exi.rd.isSome &&
      (idi.rs1 == exi.rd || idi.rs2 == exi.rd)
  | _, _ => false

/-- One call of `clockTick` (the `stepClock` operation): returns the state
unchanged when the simulation is finished, otherwise performs the
Writeback / Memory / Execute / Decode / Fetch transition described in the
source, fully replacing the five stage registers. -/
def clockTick (instructions : List Instruction) (labels : List (String × Nat))
    (s : SimState) : SimState :=
  if isFinished instructions s then s
  else
    -- WB stage: commit the result of the instruction leaving MEM.
    let wb_instr := s.pmem.instr
    let wb_result := s.pmem.result
    let wbWrite : Option (Nat × Int) :=
      match wb_instr with
      | some i =>
        match i.rd, wb_result with
        | some rd, some res => if rd ≠ 0 then some (rd, res) else none
        | _, _ => none
      | none => none
    let newRegisterFile :=
      match wbWrite with
      | some (rd, res) => s.registerFile.set rd res
      | none => s.registerFile
    let regWrittenThisCycle := wbWrite.map Prod.fst
    let newWb : Stage := { instr := wb_instr, pc := s.pmem.pc, result := wb_result }
    -- MEM stage: the instruction leaving EX touches the data memory.
    let mem_instr := s.pex.instr
    let mem_addr := s.pex.address
    let memOut : Option Int × List (Int × Int) × Option (Int × MemAccessType) :=
      match mem_instr, mem_addr with
      | some i, some a =>
        if i.op = "lw" then
          (some (memRead s.dataMemory a), s.dataMemory, some (a, MemAccessType.read))
        else if i.op = "sw" then
          (s.pex.result, memWrite s.dataMemory a ((s.pex.result).getD 0),
            some (a, MemAccessType.write))
        else (s.pex.result, s.dataMemory, none)
      | _, _ => (s.pex.result, s.dataMemory, none)
    let newMem : Stage :=
      { instr := mem_instr, pc := s.pex.pc, result := memOut.1, address := mem_addr }
    -- EX stage: hazard check, then execute the instruction leaving ID.
    let id_instr_for_ex := s.pid.instr
    let stallId := loadUseStall s
    let exec : ExecOut :=
      if stallId then { newPc := s.pc }
      else
        match id_instr_for_ex with
        | some idi => executeInstr labels s idi
        | none => { newPc := s.pc }
    let flushIf := exec.branchTaken
    let flushId := exec.branchTaken
    let newEx : Stage :=
      if stallId then { instr := none, pc := none, isStall := true }
      else { instr := id_instr_for_ex, pc := s.pid.pc,
             result := exec.result, address := exec.address }
    -- ID stage: stalled in place, flushed, or advanced from IF.
    let newId : Stage :=
      if stallId then { s.pid with isStall := true }
      else if flushId then { instr := s.pif.instr, pc := s.pif.pc, isFlush := true }
      else { instr := s.pif.instr, pc := s.pif.pc }
    -- IF stage: flushed, held on a stall, or fetching at the next pc.
    let newIf : Stage :=
      if flushIf then { instr := none, pc := none, isFlush := true }
      else if stallId then s.pif
      else if exec.newPc < instructions.length then
        match instructions.get? exec.newPc with
        | some ni => { instr := some ni, pc := some exec.newPc }
        | none => emptyStage
      else emptyStage
    let newPcFinal :=
      if exec.branchTaken then exec.newPc
      else if !stallId then s.pc + 1
      else s.pc
    { pc := newPcFinal
      cycle := s.cycle + 1
      pif := newIf
      pid := newId
      pex := newEx
      pmem := newMem
      pwb := newWb
      registerFile := newRegisterFile
      dataMemory := memOut.2.1
      lastWrittenReg := regWrittenThisCycle
      memoryAccessStatus := memOut.2.2 }

/-- `n` calls of `clockTick` starting from the reset state. -/
def stepN (instructions : List Instruction) (labels : List (String × Nat))
    (n : Nat) : SimState :=
  (clockTick instructions labels)^[n] resetState

/-- The states `s, step s, step² s, …, stepᵏ s` (k+1 states). -/
def iterStates (step : SimState → SimState) : SimState → Nat → List SimState
  | s, 0 => [s]
  | s, n + 1 => s :: iterStates step (step s) n

/-- The `idReadsReg` helper of the `hazardMessage` memo: the register is
defined, is not `x0`, and is read by the Decode-stage instruction. -/
def idReadsReg (idInstr : Option Instruction) (reg : Option Nat) : Bool :=
  match reg with
  | none => false
  | some r =>
    r != 0 &&
      (match idInstr with
       | some i => i.rs1 == some r || i.rs2 == some r
       | none => false)

/-- The classification computed by the `hazardMessage` memo. -/
inductive HazardClass where
  | loadUse (r : Nat)
  | exForward (r : Nat)
  | memForward (r : Nat)
  | control
  | noHazard
deriving DecidableEq, Repr

/-- Priority 1 of `hazardMessage`: load-use dependency from a `lw` in EX. -/
def exLoadUseCond (s : SimState) : Bool :=
  match s.pex.instr with
  | some e => e.op == "lw" && idReadsReg s.pid.instr e.rd
  | none => false

/-- Priority 2 of `hazardMessage`: EX→ID forwarding. -/
def exForwardCond (s : SimState) : Bool :=
  match s.pex.instr with
  | some e => e.rd.isSome && idReadsReg s.pid.instr e.rd
  | none => false

/-- Priority 3 of `hazardMessage`: MEM→ID forwarding. -/
def memForwardCond (s : SimState) : Bool :=
  match s.pmem.instr with
  | some m => m.rd.isSome && idReadsReg s.pid.instr m.rd
  | none => false

/-- Priority 4 of `hazardMessage`: a branch/jump sitting in EX. -/
def exControlCond (s : SimState) : Bool :=
  match s.pex.instr with
  | some e => e.op == "beq" || e.op == "jal"
  | none => false

/-- Destination register of the EX-stage instruction (for the message text). -/
def exRd (s : SimState) : Nat :=
  match s.pex.instr with
  | some e => e.rd.getD 0
  | none => 0

/-- Destination register of the MEM-stage instruction (for the message text). -/
def memRd (s : SimState) : Nat :=
  match s.pmem.instr with
  | some m => m.rd.getD 0
  | none => 0

/-- The classified hazard/forwarding message of the `hazardMessage` memo,
with the source's priority order: load-use, then EX→ID forward, then
MEM→ID forward, then control hazard, then "no hazards detected". -/
def hazardClassification (s : SimState) : HazardClass :=
  if exLoadUseCond s then .loadUse (exRd s)
  else if exForwardCond s then .exForward (exRd s)
  else if memForwardCond s then .memForward (memRd s)
  else if exControlCond s then .control
  else .noHazard

end PipelineSim

namespace PerfModel

/-- A DVFS/board operating-point record (type `DVFSProfile` in the source);
string-keyed cost tables are association lists. -/
structure DVFSProfile where
  name : String
  riscv_clk_mhz : ℚ
  arm_clk_mhz : ℚ
  energy_per_cycle_hw : List (String × ℚ)
  energy_per_cycle_sw : ℚ
  static_power_hw_mw : ℚ
  static_power_sw_mw : ℚ
  l1_cache_hit_rate : ℚ
  l1_miss_penalty_cycles : ℚ
  dram_energy_per_access_pj : ℚ
  branch_predictor_accuracy : ℚ
  branch_mispredict_penalty_cycles : ℚ
  cycles_hw : List (String × ℚ)
deriving DecidableEq, Repr

/-- JS `a || d` on an optional looked-up number: `0` and a missing key
both fall back to the default. -/
def jsOrD (o : Option ℚ) (d : ℚ) : ℚ :=
  match o with
  | some v => if v = 0 then d else v
  | none => d

/-- The fixed software-equivalent cycle table of the `sim` closure. -/
def sw_equivalent_cycles : List (String × ℚ) :=
  [("mac", 5), ("relu", 3), ("conv2d.3x3", 40), ("dwconv.3x3", 35),
   ("maxpool.2x2", 10), ("sigmoid", 20), ("tanh", 20), ("default", 2)]

/-- Accumulator of the `for (const [instr, count] of Object.entries(...))`
loop in `sim`. -/
structure MixAcc where
  totalCycles : ℚ := 0
  dynamicEnergyPj : ℚ := 0
  memoryAccesses : ℚ := 0
  branchCount : ℚ := 0
deriving DecidableEq, Repr

/-- One iteration of the instruction-mix loop of `sim`. -/
def simStep (profile : DVFSProfile) (isHw : Bool) (acc : MixAcc) (e : String × ℚ) :
    MixAcc :=
  let instr := e.1
  let numericCount := e.2
  if numericCount = 0 then acc
  else
    let acc :=
      if isHw then
        let cyclesPerInstr :=
          (profile.cycles_hw.lookup instr).getD ((profile.cycles_hw.lookup "default").getD 1)
        let energyPerCycle :=
          (profile.energy_per_cycle_hw.lookup instr).getD
            ((profile.energy_per_cycle_hw.lookup "default").getD 0)
        { acc with totalCycles := acc.totalCycles + numericCount * cyclesPerInstr,
                   dynamicEnergyPj :=
                     acc.dynamicEnergyPj + numericCount * cyclesPerInstr * energyPerCycle }
      else
        { acc with totalCycles :=
            acc.totalCycles + numericCount * jsOrD (sw_equivalent_cycles.lookup instr) 2 }
    let acc :=
      if instr = "lw" ∨ instr = "sw" ∨ instr = "flw" ∨ instr = "fsw" then
        { acc with memoryAccesses := acc.memoryAccesses + numericCount }
      else acc
    if instr = "beq" then { acc with branchCount := acc.branchCount + numericCount }
    else acc

/-- Result record of one `sim` call: `{latencyMs, totalEnergyMj, totalCycles}`. -/
structure SimResult where
  latencyMs : ℚ
  totalEnergyMj : ℚ
  totalCycles : ℚ
deriving DecidableEq, Repr

/-- The `sim` closure of the `results` memo: cycle accumulation over the
instruction mix, cache-miss and branch-mispredict penalties, latency from
the selected clock, and static+dynamic energy. -/
def sim (profile : DVFSProfile) (instructionMix : List (String × ℚ)) (isHw : Bool) :
    SimResult :=
  let acc := instructionMix.foldl (simStep profile isHw) {}
  let dynamicEnergyPj :=
    if isHw then acc.dynamicEnergyPj else acc.totalCycles * profile.energy_per_cycle_sw
  let cacheMisses := acc.memoryAccesses * (1 - profile.l1_cache_hit_rate)
  let cachePenaltyCycles := cacheMisses * profile.l1_miss_penalty_cycles
  let branchMispredicts := acc.branchCount * (1 - profile.branch_predictor_accuracy)
  let branchPenaltyCycles := branchMispredicts * profile.branch_mispredict_penalty_cycles
  let totalCycles := acc.totalCycles + cachePenaltyCycles + branchPenaltyCycles
  let clockMhz := if isHw then profile.riscv_clk_mhz else profile.arm_clk_mhz
  let latencyMs := totalCycles / (clockMhz * 1000000) * 1000
  let staticPowerMw := if isHw then profile.static_power_hw_mw else profile.static_power_sw_mw
  let staticEnergyMj := staticPowerMw / 1000 * (latencyMs / 1000) * 1000
  let dynamicEnergyMj := dynamicEnergyPj / 1000000000
  let totalEnergyMj := dynamicEnergyMj + staticEnergyMj
  { latencyMs := latencyMs, totalEnergyMj := totalEnergyMj, totalCycles := totalCycles }

/-- A JavaScript IEEE-754 division result, as far as the ratio metrics can
observe it: a finite (here: exactly representable) value, an infinity, or
`NaN`. -/
inductive JSNum where
  | fin (q : ℚ)
  | posInf
  | negInf
  | nan
deriving DecidableEq, Repr

/-- JavaScript `a / b`: `0/0` is `NaN`, `±x/0` is `±Infinity`. -/
def jsDiv (a b : ℚ) : JSNum :=
  if b = 0 then (if a = 0 then .nan else if 0 < a then .posInf else .negInf)
  else .fin (a / b)

/-- The value of the `results` memo: both `sim` runs and the derived
comparison metrics, with the source's guards (throughput is guarded by
`latency > 0`; speedup and energy-efficiency are raw divisions). -/
structure Results where
  hw : SimResult
  sw : SimResult
  speedup : JSNum
  energyEfficiency : JSNum
  hwThroughput : JSNum
  swThroughput : JSNum
deriving DecidableEq, Repr

/-- The `results` memo of `HardwareEmulation`. -/
def results (profile : DVFSProfile) (instructionMix : List (String × ℚ)) : Results :=
  let hw := sim profile instructionMix true
  let sw := sim profile instructionMix false
  let speedup := jsDiv sw.latencyMs hw.latencyMs
  let energyEfficiency := jsDiv sw.totalEnergyMj hw.totalEnergyMj
  let totalOperations := instructionMix.foldl (fun (t : ℚ) e => t + e.2) 0
  let hwLatencyS := hw.latencyMs / 1000
  let swLatencyS := sw.latencyMs / 1000
  let hwThroughput := if 0 < hwLatencyS then jsDiv totalOperations hwLatencyS else .fin 0
  let swThroughput := if 0 < swLatencyS then jsDiv totalOperations swLatencyS else .fin 0
  { hw := hw, sw := sw, speedup := speedup, energyEfficiency := energyEfficiency,
    hwThroughput := hwThroughput, swThroughput := swThroughput }

end PerfModel

namespace PerfModel

/-- The per-instruction cycle table shared by the Zynq-7000 boards
(PYNQ-Z2 and Zybo Z7-20) in the `boards` constant. -/
def cyclesHwZynq : List (String × ℚ) :=
  [("mac", 1), ("relu", 1), ("sigmoid", 4), ("tanh", 4), ("conv2d.3x3", 3),
   ("dwconv.3x3", 3), ("maxpool.2x2", 2), ("fadd.s", 2), ("fsub.s", 2),
   ("fmul.s", 3), ("fdiv.s", 12), ("flw", 2), ("fsw", 1), ("lw", 2), ("sw", 1),
   ("beq", 1), ("jal", 1), ("addi", 1), ("add", 1), ("sub", 1), ("default", 1)]

/-- The per-instruction cycle table shared by the Artix-7 boards
(Arty A7-100T and Basys 3) in the `boards` constant. -/
def cyclesHwArtix : List (String × ℚ) :=
  [("mac", 1), ("relu", 1), ("sigmoid", 5), ("tanh", 5), ("conv2d.3x3", 4),
   ("dwconv.3x3", 4), ("maxpool.2x2", 3), ("fadd.s", 3), ("fsub.s", 3),
   ("fmul.s", 4), ("fdiv.s", 14), ("flw", 3), ("fsw", 2), ("lw", 3), ("sw", 2),
   ("beq", 1), ("jal", 1), ("addi", 1), ("add", 1), ("sub", 1), ("default", 1)]

/-- `boards["pynq-z2"].profiles.performance` (identical to the Zybo Z7-20 row). -/
def pynqPerformance : DVFSProfile where
  name := "Performance"
  riscv_clk_mhz := 125
  arm_clk_mhz := 780
  energy_per_cycle_hw :=
    [("mac", 4.7), ("relu", 1.6), ("conv2d.3x3", 13), ("dwconv.3x3", 10.3),
     ("maxpool.2x2", 6), ("sigmoid", 23), ("tanh", 23), ("fadd.s", 1.2),
     ("fsub.s", 1.2), ("fmul.s", 3.9), ("fdiv.s", 16), ("flw", 7.8), ("fsw", 7.8),
     ("lw", 6.2), ("sw", 6.2), ("beq", 0.78), ("jal", 0.94), ("addi", 0.62),
     ("default", 0.78)]
  energy_per_cycle_sw := 29
  static_power_hw_mw := 150
  static_power_sw_mw := 250
  l1_cache_hit_rate := 0.98
  l1_miss_penalty_cycles := 40
  dram_energy_per_access_pj := 650
  branch_predictor_accuracy := 0.92
  branch_mispredict_penalty_cycles := 3
  cycles_hw := cyclesHwZynq

/-- `boards["pynq-z2"].profiles.balanced` (identical to the Zybo Z7-20 row). -/
def pynqBalanced : DVFSProfile where
  name := "Balanced"
  riscv_clk_mhz := 100
  arm_clk_mhz := 650
  energy_per_cycle_hw :=
    [("mac", 3), ("relu", 1), ("conv2d.3x3", 8.33), ("dwconv.3x3", 6.67),
     ("maxpool.2x2", 4), ("sigmoid", 15), ("tanh", 15), ("fadd.s", 0.8),
     ("fsub.s", 0.8), ("fmul.s", 2.5), ("fdiv.s", 10), ("flw", 5), ("fsw", 5),
     ("lw", 4), ("sw", 4), ("beq", 0.5), ("jal", 0.6), ("addi", 0.4),
     ("default", 0.5)]
  energy_per_cycle_sw := 20
  static_power_hw_mw := 100
  static_power_sw_mw := 180
  l1_cache_hit_rate := 0.97
  l1_miss_penalty_cycles := 42
  dram_energy_per_access_pj := 680
  branch_predictor_accuracy := 0.90
  branch_mispredict_penalty_cycles := 3
  cycles_hw := cyclesHwZynq

/-- `boards["pynq-z2"].profiles.low_power` (identical to the Zybo Z7-20 row). -/
def pynqLowPower : DVFSProfile where
  name := "Low Power"
  riscv_clk_mhz := 75
  arm_clk_mhz := 520
  energy_per_cycle_hw :=
    [("mac", 1.7), ("relu", 0.56), ("conv2d.3x3", 4.67), ("dwconv.3x3", 3.67),
     ("maxpool.2x2", 2.25), ("sigmoid", 8.4), ("tanh", 8.4), ("fadd.s", 0.45),
     ("fsub.s", 0.45), ("fmul.s", 1.4), ("fdiv.s", 5.6), ("flw", 2.8), ("fsw", 2.8),
     ("lw", 2.2), ("sw", 2.2), ("beq", 0.28), ("jal", 0.34), ("addi", 0.22),
     ("default", 0.28)]
  energy_per_cycle_sw := 13
  static_power_hw_mw := 70
  static_power_sw_mw := 120
  l1_cache_hit_rate := 0.96
  l1_miss_penalty_cycles := 45
  dram_energy_per_access_pj := 720
  branch_predictor_accuracy := 0.88
  branch_mispredict_penalty_cycles := 3
  cycles_hw := cyclesHwZynq

/-- `boards["arty-a7"].profiles.performance`. -/
def artyPerformance : DVFSProfile where
  name := "Performance"
  riscv_clk_mhz := 125
  arm_clk_mhz := 500
  energy_per_cycle_hw :=
    [("mac", 3.7), ("relu", 1.2), ("conv2d.3x3", 10.3), ("dwconv.3x3", 8.33),
     ("maxpool.2x2", 4.95), ("sigmoid", 19), ("tanh", 19), ("fadd.s", 0.99),
     ("fsub.s", 0.99), ("fmul.s", 3.1), ("fdiv.s", 12), ("flw", 6.2), ("fsw", 6.2),
     ("lw", 5), ("sw", 5), ("beq", 0.62), ("jal", 0.75), ("addi", 0.5),
     ("default", 0.62)]
  energy_per_cycle_sw := 23
  static_power_hw_mw := 120
  static_power_sw_mw := 180
  l1_cache_hit_rate := 0.96
  l1_miss_penalty_cycles := 50
  dram_energy_per_access_pj := 800
  branch_predictor_accuracy := 0.90
  branch_mispredict_penalty_cycles := 4
  cycles_hw := cyclesHwArtix

/-- `boards["arty-a7"].profiles.balanced`. -/
def artyBalanced : DVFSProfile where
  name := "Balanced"
  riscv_clk_mhz := 100
  arm_clk_mhz := 400
  energy_per_cycle_hw :=
    [("mac", 2.4), ("relu", 0.8), ("conv2d.3x3", 6.67), ("dwconv.3x3", 5.33),
     ("maxpool.2x2", 3.2), ("sigmoid", 12), ("tanh", 12), ("fadd.s", 0.64),
     ("fsub.s", 0.64), ("fmul.s", 2), ("fdiv.s", 8), ("flw", 4), ("fsw", 4),
     ("lw", 3.2), ("sw", 3.2), ("beq", 0.4), ("jal", 0.48), ("addi", 0.32),
     ("default", 0.4)]
  energy_per_cycle_sw := 16
  static_power_hw_mw := 80
  static_power_sw_mw := 130
  l1_cache_hit_rate := 0.95
  l1_miss_penalty_cycles := 52
  dram_energy_per_access_pj := 840
  branch_predictor_accuracy := 0.88
  branch_mispredict_penalty_cycles := 4
  cycles_hw := cyclesHwArtix

/-- `boards["arty-a7"].profiles.low_power`. -/
def artyLowPower : DVFSProfile where
  name := "Low Power"
  riscv_clk_mhz := 75
  arm_clk_mhz := 320
  energy_per_cycle_hw :=
    [("mac", 1.3), ("relu", 0.45), ("conv2d.3x3", 3.67), ("dwconv.3x3", 3),
     ("maxpool.2x2", 1.8), ("sigmoid", 6.7), ("tanh", 6.7), ("fadd.s", 0.36),
     ("fsub.s", 0.36), ("fmul.s", 1.1), ("fdiv.s", 4.5), ("flw", 2.2), ("fsw", 2.2),
     ("lw", 1.8), ("sw", 1.8), ("beq", 0.22), ("jal", 0.27), ("addi", 0.18),
     ("default", 0.22)]
  energy_per_cycle_sw := 10
  static_power_hw_mw := 50
  static_power_sw_mw := 90
  l1_cache_hit_rate := 0.94
  l1_miss_penalty_cycles := 55
  dram_energy_per_access_pj := 880
  branch_predictor_accuracy := 0.85
  branch_mispredict_penalty_cycles := 4
  cycles_hw := cyclesHwArtix

/-- `boards["basys3"].profiles.performance`. -/
def basysPerformance : DVFSProfile where
  name := "Performance"
  riscv_clk_mhz := 125
  arm_clk_mhz := 500
  energy_per_cycle_hw :=
    [("mac", 3.3), ("relu", 1.1), ("conv2d.3x3", 9.33), ("dwconv.3x3", 7.33),
     ("maxpool.2x2", 4.4), ("sigmoid", 17), ("tanh", 17), ("fadd.s", 0.88),
     ("fsub.s", 0.88), ("fmul.s", 2.8), ("fdiv.s", 11), ("flw", 5.5), ("fsw", 5.5),
     ("lw", 4.4), ("sw", 4.4), ("beq", 0.55), ("jal", 0.66), ("addi", 0.44),
     ("default", 0.55)]
  energy_per_cycle_sw := 20
  static_power_hw_mw := 110
  static_power_sw_mw := 170
  l1_cache_hit_rate := 0.96
  l1_miss_penalty_cycles := 50
  dram_energy_per_access_pj := 800
  branch_predictor_accuracy := 0.90
  branch_mispredict_penalty_cycles := 4
  cycles_hw := cyclesHwArtix

/-- `boards["basys3"].profiles.balanced`. -/
def basysBalanced : DVFSProfile where
  name := "Balanced"
  riscv_clk_mhz := 100
  arm_clk_mhz := 400
  energy_per_cycle_hw :=
    [("mac", 2.1), ("relu", 0.7), ("conv2d.3x3", 6), ("dwconv.3x3", 4.67),
     ("maxpool.2x2", 2.8), ("sigmoid", 11), ("tanh", 11), ("fadd.s", 0.56),
     ("fsub.s", 0.56), ("fmul.s", 1.8), ("fdiv.s", 7), ("flw", 3.5), ("fsw", 3.5),
     ("lw", 2.8), ("sw", 2.8), ("beq", 0.35), ("jal", 0.42), ("addi", 0.28),
     ("default", 0.35)]
  energy_per_cycle_sw := 14
  static_power_hw_mw := 75
  static_power_sw_mw := 120
  l1_cache_hit_rate := 0.95
  l1_miss_penalty_cycles := 52
  dram_energy_per_access_pj := 840
  branch_predictor_accuracy := 0.88
  branch_mispredict_penalty_cycles := 4
  cycles_hw := cyclesHwArtix

/-- `boards["basys3"].profiles.low_power`. -/
def basysLowPower : DVFSProfile where
  name := "Low Power"
  riscv_clk_mhz := 75
  arm_clk_mhz := 320
  energy_per_cycle_hw :=
    [("mac", 1.2), ("relu", 0.39), ("conv2d.3x3", 3.27), ("dwconv.3x3", 2.6),
     ("maxpool.2x2", 1.55), ("sigmoid", 5.9), ("tanh", 5.9), ("fadd.s", 0.31),
     ("fsub.s", 0.31), ("fmul.s", 0.98), ("fdiv.s", 3.9), ("flw", 2), ("fsw", 2),
     ("lw", 1.6), ("sw", 1.6), ("beq", 0.2), ("jal", 0.24), ("addi", 0.16),
     ("default", 0.2)]
  energy_per_cycle_sw := 9
  static_power_hw_mw := 45
  static_power_sw_mw := 80
  l1_cache_hit_rate := 0.94
  l1_miss_penalty_cycles := 55
  dram_energy_per_access_pj := 880
  branch_predictor_accuracy := 0.85
  branch_mispredict_penalty_cycles := 4
  cycles_hw := cyclesHwArtix

/-- All twelve DVFS profiles of the `boards` constant; the Zybo Z7-20
rows repeat the PYNQ-Z2 rows verbatim in the source. -/
def allBoardProfiles : List DVFSProfile :=
  [pynqPerformance, pynqBalanced, pynqLowPower,
   artyPerformance, artyBalanced, artyLowPower,
   basysPerformance, basysBalanced, basysLowPower,
   pynqPerformance, pynqBalanced, pynqLowPower]

/-- The key set of `defaultInstructionMix`, in source order, with every
count set to zero. -/
def zeroMix : List (String × ℚ) :=
  [("mac", 0), ("relu", 0), ("conv2d.3x3", 0), ("dwconv.3x3", 0),
   ("maxpool.2x2", 0), ("sigmoid", 0), ("tanh", 0), ("fadd.s", 0), ("fsub.s", 0),
   ("fmul.s", 0), ("fdiv.s", 0), ("flw", 0), ("fsw", 0), ("lw", 0), ("sw", 0),
   ("beq", 0), ("jal", 0), ("addi", 0), ("add", 0), ("sub", 0), ("default", 0)]

/-- An instruction mix consisting solely of 1,000,000 `conv2d.3x3`
operations (all other mix keys zero). -/
def convOnlyMix : List (String × ℚ) :=
  [("mac", 0), ("relu", 0), ("conv2d.3x3", 1000000), ("dwconv.3x3", 0),
   ("maxpool.2x2", 0), ("sigmoid", 0), ("tanh", 0), ("fadd.s", 0), ("fsub.s", 0),
   ("fmul.s", 0), ("fdiv.s", 0), ("flw", 0), ("fsw", 0), ("lw", 0), ("sw", 0),
   ("beq", 0), ("jal", 0), ("addi", 0), ("add", 0), ("sub", 0), ("default", 0)]

/-- The accelerated per-instruction cycle count a profile assigns to
`conv2d.3x3` (with the source's `?? default ?? 1` fallback). -/
def convCycles (p : DVFSProfile) : ℚ :=
  (p.cycles_hw.lookup "conv2d.3x3").getD ((p.cycles_hw.lookup "default").getD 1)

/-- A syntactically valid `DVFSProfile` whose accelerated `conv2d.3x3`
cycle count (39) is below the software-equivalent 40 but whose clock pair
(1 MHz accelerated against 10000 MHz baseline) reverses the latency
comparison. -/
def adversarialProfile : DVFSProfile where
  name := "Adversarial"
  riscv_clk_mhz := 1
  arm_clk_mhz := 10000
  energy_per_cycle_hw := [("default", 1)]
  energy_per_cycle_sw := 1
  static_power_hw_mw := 1
  static_power_sw_mw := 1
  l1_cache_hit_rate := 0.9
  l1_miss_penalty_cycles := 40
  dram_energy_per_access_pj := 650
  branch_predictor_accuracy := 0.9
  branch_mispredict_penalty_cycles := 3
  cycles_hw := [("conv2d.3x3", 39), ("default", 1)]

end PerfModel

namespace PipelineSim

/-! ## Concrete programs (instruction records as `parseAssembly` produces them) -/

/-- `lw x2, 0(x1)` at index 0 of the round-trip program. -/
def lwX2 : Instruction :=
  { raw := "lw x2, 0(x1)", op := "lw", rd := some 2, rs1 := some 1, imm := some 0, pc := 0 }

/-- `addi x3, x2, 4` at index 1 of the round-trip program. -/
def addiX3 : Instruction :=
  { raw := "addi x3, x2, 4", op := "addi", rd := some 3, rs1 := some 2, imm := some 4, pc := 1 }

/-- `sw x3, 4(x1)` at index 2 of the round-trip program (`rd` cleared,
`rs2` holding the stored register, as the parser produces). -/
def swX3 : Instruction :=
  { raw := "sw x3, 4(x1)", op := "sw", rs2 := some 3, rs1 := some 1, imm := some 4, pc := 2 }

/-- The round-trip scenario program `lw x2,0(x1)` / `addi x3,x2,4` / `sw x3,4(x1)`. -/
def roundProg : List Instruction := [lwX2, addiX3, swX3]

/-- `beq x0, x0, skip` at index 0 of the branch-shadowed program. -/
def beqSkip : Instruction :=
  { raw := "beq x0, x0, skip", op := "beq", rs1 := some 0, rs2 := some 0, pc := 0 }

/-- `lw x2, 0(x1)` at index 1 of the branch-shadowed program. -/
def lwB : Instruction :=
  { raw := "lw x2, 0(x1)", op := "lw", rd := some 2, rs1 := some 1, imm := some 0, pc := 1 }

/-- `addi x3, x2, 4` at index 2 of the branch-shadowed program. -/
def addiB : Instruction :=
  { raw := "addi x3, x2, 4", op := "addi", rd := some 3, rs1 := some 2, imm := some 4, pc := 2 }

/-- `skip: add x8, x8, x9` at index 3 of the branch-shadowed program. -/
def addX8 : Instruction :=
  { raw := "add x8, x8, x9", op := "add", rd := some 8, rs1 := some 8, rs2 := some 9, pc := 3 }

/-- A program in which the `lw`/dependent-`addi` pair sits in the shadow of
a taken branch: `beq x0,x0,skip` / `lw x2,0(x1)` / `addi x3,x2,4` /
`skip: add x8,x8,x9`. -/
def branchProg : List Instruction := [beqSkip, lwB, addiB, addX8]

/-- Label table of `branchProg`. -/
def branchLabels : List (String × Nat) := [("skip", 3)]

/-- `beq x0, x0, end` at index 0 of the flush program. -/
def beqEnd : Instruction :=
  { raw := "beq x0, x0, end", op := "beq", rs1 := some 0, rs2 := some 0, pc := 0 }

/-- `add x3, x1, x1` at index 1 of the flush program — the wrong-path
instruction that sits in Decode when the branch resolves. -/
def addX3 : Instruction :=
  { raw := "add x3, x1, x1", op := "add", rd := some 3, rs1 := some 1, rs2 := some 1, pc := 1 }

/-- `end: add x8, x8, x9` at index 2 of the flush program. -/
def addX8e : Instruction :=
  { raw := "add x8, x8, x9", op := "add", rd := some 8, rs1 := some 8, rs2 := some 9, pc := 2 }

/-- Branch-flush program: `beq x0,x0,end` / `add x3,x1,x1` / `end: add x8,x8,x9`. -/
def flushProg : List Instruction := [beqEnd, addX3, addX8e]

/-- Label table of `flushProg`. -/
def flushLabels : List (String × Nat) := [("end", 2)]

/-- `loop: beq x0, x0, loop` — a single-instruction infinite loop. -/
def beqLoop : Instruction :=
  { raw := "beq x0, x0, loop", op := "beq", rs1 := some 0, rs2 := some 0, pc := 0 }

/-- The looping program consisting only of a taken backward branch. -/
def loopProg : List Instruction := [beqLoop]

/-- Label table of `loopProg`. -/
def loopLabels : List (String × Nat) := [("loop", 0)]

/-- `add x5, x4, x1` seated in the Execute stage. -/
def addX5ex : Instruction :=
  { raw := "add x5, x4, x1", op := "add", rd := some 5, rs1 := some 4, rs2 := some 1, pc := 1 }

/-- `add x5, x4, x1` seated in the Memory stage (the elder writer of x5). -/
def addX5mem : Instruction :=
  { raw := "add x5, x4, x1", op := "add", rd := some 5, rs1 := some 4, rs2 := some 1, pc := 0 }

/-- `sub x6, x5, x2` seated in the Decode stage, reading x5. -/
def subX6 : Instruction :=
  { raw := "sub x6, x5, x2", op := "sub", rd := some 6, rs1 := some 5, rs2 := some 2, pc := 2 }

/-- A pipeline state in which the Memory-stage and Execute-stage
instructions both write x5 (carrying results 10 and 20 respectively) and
the Decode-stage instruction reads x5. -/
def dualWriteState : SimState :=
  { resetState with
      pid := { instr := some subX6, pc := some 2 }
      pex := { instr := some addX5ex, pc := some 1, result := some 20 }
      pmem := { instr := some addX5mem, pc := some 0, result := some 10 } }

end PipelineSim

namespace PipelineSim

/-- C1: for the three-instruction program `lw x2,0(x1)` / `addi x3,x2,4` /
`sw x3,4(x1)`, started from the reset state (x1 = 256, memory word
256 = 42), stepping the clock until the simulation is finished leaves
data-memory word 260 equal to 46 (and word 256 still 42). -/
theorem c1_round_trip :
    isFinished roundProg (stepN roundProg [] 9) = true ∧
      (stepN roundProg [] 9).dataMemory.lookup 260 = some 46 ∧
      (stepN roundProg [] 9).dataMemory.lookup 256 = some 42 := by
  decide

/-- C2 counterexample: `branchProg` contains `lw x2,0(x1)` immediately
followed by `addi x3,x2,4` (indices 1 and 2), yet because the pair sits
in the shadow of the taken branch `beq x0,x0,skip`, the complete run from
reset contains no stall cycle at all — not exactly one — and the `addi`
never executes (x3 stays 0). -/
theorem c2_counterexample :
    branchProg.get? 1 = some lwB ∧ lwB.op = "lw" ∧ lwB.rd = some 2 ∧
    branchProg.get? 2 = some addiB ∧ addiB.rs1 = some 2 ∧
    isFinished branchProg (stepN branchProg branchLabels 12) = true ∧
    ((iterStates (clockTick branchProg branchLabels) resetState 12).all
      (fun st => !st.pex.isStall)) = true ∧
    (stepN branchProg branchLabels 12).registerFile.get? 3 = some 0 := by
  decide

/-- C3: when `beq x0,x0,end` resolves taken, both Fetch and Decode are
marked flushed and the next fetch is the branch target — but the
"flushed" Decode-stage instruction `add x3,x1,x1` is retained and still
executes, writing x3 = 512 at writeback: wrong-path instructions do have
an architectural effect, contradicting the claim. -/
theorem c3_flush_executes :
    (stepN flushProg flushLabels 3).pid.isFlush = true ∧
    (stepN flushProg flushLabels 3).pid.instr = some addX3 ∧
    (stepN flushProg flushLabels 3).pif =
      { instr := none, pc := none, isFlush := true } ∧
    (stepN flushProg flushLabels 3).pc = 2 ∧
    (stepN flushProg flushLabels 4).pif.instr = some addX8e ∧
    isFinished flushProg (stepN flushProg flushLabels 9) = true ∧
    (stepN flushProg flushLabels 9).registerFile.get? 3 = some 512 := by
  decide

/-- C4 counterexample: the one-instruction program `loop: beq x0,x0,loop`
(program length 1, pipeline depth 5, zero stall cycles) is still not
finished after 40 clock ticks — far beyond the claimed
"program length + pipeline depth + stalls" bound. -/
theorem c4_counterexample :
    loopProg.length = 1 ∧
    ((iterStates (clockTick loopProg loopLabels) resetState 40).all
      (fun st => !isFinished loopProg st)) = true ∧
    ((iterStates (clockTick loopProg loopLabels) resetState 40).all
      (fun st => !st.pex.isStall)) = true := by
  decide

/-- C6 counterexample: in `dualWriteState` no load-use hazard holds and
both the Memory-stage and the Execute-stage instructions write x5, which
the Decode-stage instruction reads — yet the reported classification is
the EX→ID forward, not the MEM→ID forward the claim requires. -/
theorem c6_counterexample :
    exLoadUseCond dualWriteState = false ∧
    memForwardCond dualWriteState = true ∧
    exForwardCond dualWriteState = true ∧
    hazardClassification dualWriteState = HazardClass.exForward 5 ∧
    HazardClass.exForward 5 ≠ HazardClass.memForward 5 := by
  decide

end PipelineSim

namespace PerfModel

/-- C7: for the instruction mix in which every count is zero, both
latencies and energies are exactly 0, and the unguarded divisions produce
`speedup = 0/0 = NaN` and `energyEfficiencyGain = 0/0 = NaN` — only the
throughput metrics are guarded (yielding 0).  This contradicts the
claim/spec that every such division yields a defined sentinel, never NaN. -/
theorem c7_zero_mix_nan :
    (results pynqBalanced zeroMix).speedup = JSNum.nan ∧
    (results pynqBalanced zeroMix).energyEfficiency = JSNum.nan ∧
    (results pynqBalanced zeroMix).hwThroughput = JSNum.fin 0 ∧
    (results pynqBalanced zeroMix).swThroughput = JSNum.fin 0 := by
  decide!

/-- C8 (amended): for every DVFS profile defined in the repository's board
table — each of which gives `conv2d.3x3` an accelerated cycle count
strictly below the software-equivalent 40 — the accelerated-path latency
for the mix of 1,000,000 `conv2d.3x3` operations is strictly less than
the baseline-path latency. -/
theorem c8_repo_profiles_speedup :
    (allBoardProfiles.all (fun p =>
      decide (convCycles p < 40) &&
      decide ((sim p convOnlyMix true).latencyMs <
              (sim p convOnlyMix false).latencyMs))) = true := by
  decide!

/-- C8 counterexample: the claim as stated fails for arbitrary profiles —
`adversarialProfile` has accelerated `conv2d.3x3` cycles 39 < 40, yet its
clock pair (1 MHz accelerated vs 10000 MHz baseline) makes the
accelerated latency strictly larger than the baseline latency. -/
theorem c8_counterexample :
    convCycles adversarialProfile = 39 ∧ (39 : ℚ) < 40 ∧
    (sim adversarialProfile convOnlyMix false).latencyMs <
      (sim adversarialProfile convOnlyMix true).latencyMs := by
  decide!

end PerfModel

namespace PipelineSim

/-- C2 (amended): whenever the Execute stage holds a `lw` (destination
`d ≠ 0`, computed address `a`) and the Decode stage holds an instruction
reading `d`, exactly one stall occurs: a single bubble enters Execute,
Fetch holds its instruction, the dependent instruction is held in Decode
and the pc does not advance; on the following tick no stall bubble is
inserted and the dependent instruction enters Execute, with its operand
`d` resolving to the word loaded from memory at `a`, not the register
file content. -/
theorem c2_load_use_stall (instructions : List Instruction) (labels : List (String × Nat))
    (s : SimState) (li di : Instruction) (d : Nat) (a : Int)
    (hex : s.pex.instr = some li) (hop : li.op = "lw") (hrd : li.rd = some d)
    (hd0 : d ≠ 0) (haddr : s.pex.address = some a)
    (hid : s.pid.instr = some di)
    (hreads : di.rs1 = some d ∨ di.rs2 = some d) :
    (clockTick instructions labels s).pex.instr = none ∧
    (clockTick instructions labels s).pex.isStall = true ∧
    (clockTick instructions labels s).pif = s.pif ∧
    (clockTick instructions labels s).pid.instr = some di ∧
    (clockTick instructions labels s).pc = s.pc ∧
    (clockTick instructions labels (clockTick instructions labels s)).pex.isStall = false ∧
    (clockTick instructions labels (clockTick instructions labels s)).pex.instr = some di ∧
    getValue (clockTick instructions labels s) (some d) = memRead s.dataMemory a := by
  have hnf : isFinished instructions s = false := by
    simp [isFinished, hex]
  have hst : loadUseStall s = true := by
    rcases hreads with h | h <;> simp [loadUseStall, hex, hid, hop, hrd, hd0, h]
  have hTpex : (clockTick instructions labels s).pex =
      { instr := none, pc := none, isStall := true } := by
    simp [clockTick, hnf, hst]
  have hTpid : (clockTick instructions labels s).pid.instr = some di := by
    simp [clockTick, hnf, hst, hid]
  have hTpmem_i : (clockTick instructions labels s).pmem.instr = some li := by
    simp [clockTick, hnf, hst, hex]
  have hTpmem_r : (clockTick instructions labels s).pmem.result =
      some (memRead s.dataMemory a) := by
    simp [clockTick, hnf, hst, hex, haddr, hop]
  have hnf2 : isFinished instructions (clockTick instructions labels s) = false := by
    simp [isFinished, hTpmem_i]
  have hst2 : loadUseStall (clockTick instructions labels s) = false := by
    simp [loadUseStall, hTpex]
  refine ⟨?_, ?_, ?_, hTpid, ?_, ?_, ?_, ?_⟩
  · rw [hTpex]
  · rw [hTpex]
  · simp [clockTick, hnf, hst]
  · simp [clockTick, hnf, hst]
  · generalize hT : clockTick instructions labels s = t at hnf2 hst2
    simp [clockTick, hnf2, hst2]
  · generalize hT : clockTick instructions labels s = t at hnf2 hst2 hTpid
    simp [clockTick, hnf2, hst2, hTpid]
  · simp [getValue, instrRdIs, hTpmem_i, hTpmem_r, hrd, hd0]

/-- C2 witness: instantiating the load-use theorem at cycle 3 of the
round-trip program, where `lw x2,0(x1)` sits in Execute (address 256) and
`addi x3,x2,4` sits in Decode: the stall bubble appears, Fetch holds, and
the forwarded operand is the loaded word `memory[256]`. -/
theorem c2_load_use_stall_witness :
    (stepN roundProg [] 3).pex.instr = some lwX2 ∧
    (clockTick roundProg [] (stepN roundProg [] 3)).pex.isStall = true ∧
    (clockTick roundProg [] (stepN roundProg [] 3)).pex.instr = none ∧
    (clockTick roundProg [] (stepN roundProg [] 3)).pif = (stepN roundProg [] 3).pif ∧
    getValue (clockTick roundProg [] (stepN roundProg [] 3)) (some 2) =
      memRead (stepN roundProg [] 3).dataMemory 256 := by
  have h := c2_load_use_stall roundProg [] (stepN roundProg [] 3) lwX2 addiX3 2 256
    (by decide) rfl rfl (by decide) (by decide) (by decide) (Or.inl rfl)
  exact ⟨by decide, h.2.1, h.1, h.2.2.1, h.2.2.2.2.2.2.2⟩

/-- C4 (amended): `isFinished` holds exactly when the program counter has
advanced past the end of the instruction list and all five stage
registers hold no instruction; once finished, `clockTick` returns the
state unchanged (an idempotent no-op), and while not finished every tick
increments the cycle counter (so it is a no-op exactly when finished). -/
theorem c4_finished_noop (instructions : List Instruction) (labels : List (String × Nat))
    (s : SimState) :
    (isFinished instructions s = true ↔
      (instructions.length ≤ s.pc ∧ s.pif.instr = none ∧ s.pid.instr = none ∧
        s.pex.instr = none ∧ s.pmem.instr = none ∧ s.pwb.instr = none)) ∧
    (isFinished instructions s = true → clockTick instructions labels s = s) ∧
    (isFinished instructions s = false →
      (clockTick instructions labels s).cycle = s.cycle + 1) := by
  refine ⟨?_, ?_, ?_⟩
  · simp [isFinished, Option.isNone_iff_eq_none, and_assoc]
  · intro h; simp [clockTick, h]
  · intro h; simp [clockTick, h]

/-- C4 witness: the reset state is already finished for the empty program
and `clockTick` leaves it unchanged; for the round-trip program the reset
state is not finished and a tick increments the cycle counter. -/
theorem c4_finished_noop_witness :
    isFinished ([] : List Instruction) resetState = true ∧
    clockTick [] [] resetState = resetState ∧
    isFinished roundProg resetState = false ∧
    (clockTick roundProg [] resetState).cycle = resetState.cycle + 1 :=
  ⟨by decide, (c4_finished_noop [] [] resetState).2.1 (by decide), by decide,
    (c4_finished_noop roundProg [] resetState).2.2 (by decide)⟩

/-- C5: the operand-forwarding chain consults the Memory stage first: when
the Memory-stage and the Execute-stage instructions both write the
consumed register `r` and both carry a result, `getValue` returns the
Memory-stage value (the Execute-stage and writeback checks, and the
register file, are never reached). -/
theorem c5_forwarding_priority (s : SimState) (mi ei : Instruction) (r : Nat) (v w : Int)
    (hr : r ≠ 0)
    (hmem : s.pmem.instr = some mi) (hmrd : mi.rd = some r) (hmres : s.pmem.result = some v)
    (hex : s.pex.instr = some ei) (herd : ei.rd = some r) (heres : s.pex.result = some w) :
    getValue s (some r) = v := by
  simp [getValue, instrRdIs, hmem, hmrd, hmres, hex, herd, heres, hr]

/-- C5 witness: in `dualWriteState` the Memory stage carries 10 and the
Execute stage carries 20 for register x5; `getValue` resolves x5 to the
Memory-stage value 10. -/
theorem c5_forwarding_priority_witness :
    (5 : Nat) ≠ 0 ∧
    dualWriteState.pmem.result = some 10 ∧ dualWriteState.pex.result = some 20 ∧
    getValue dualWriteState (some 5) = 10 :=
  ⟨by decide, rfl, rfl,
    c5_forwarding_priority dualWriteState addX5mem addX5ex 5 10 20
      (by decide) rfl rfl rfl rfl rfl rfl⟩

/-- C6 (amended): the hazard message prefers the EX→ID forward: in every
pipeline state with no load-use hazard in which the Execute-stage
instruction writes a register (≠ x0, op ≠ `lw`) that the Decode-stage
instruction reads, the reported classification is the EX→ID forward —
regardless of the Memory stage; MEM→ID is reported only when the Execute
stage does not match. -/
theorem c6_ex_priority (s : SimState) (e : Instruction) (r : Nat)
    (hex : s.pex.instr = some e) (hrd : e.rd = some r) (hop : e.op ≠ "lw")
    (hreads : idReadsReg s.pid.instr (some r) = true) :
    hazardClassification s = HazardClass.exForward r := by
  simp [hazardClassification, exLoadUseCond, exForwardCond, exRd, hex, hrd, hop, hreads]

/-- C6 witness: in `dualWriteState` (both MEM and EX write x5, Decode
reads x5, no load-use hazard) the classification is the EX→ID forward. -/
theorem c6_ex_priority_witness :
    addX5ex.op ≠ "lw" ∧ idReadsReg dualWriteState.pid.instr (some 5) = true ∧
    hazardClassification dualWriteState = HazardClass.exForward 5 :=
  ⟨by decide, by decide,
    c6_ex_priority dualWriteState addX5ex 5 rfl rfl (by decide) (by decide)⟩

/-- C9: register x0 is hardwired to zero — a clock tick never changes
entry 0 of the register file (the Writeback stage suppresses writes to
register 0), every state reached from reset by any number of ticks of any
program has register 0 equal to 0, and operand resolution always reads
register 0 as 0. -/
theorem c9_register_zero (instructions : List Instruction) (labels : List (String × Nat)) :
    (∀ s : SimState, (clockTick instructions labels s).registerFile.get? 0 =
        s.registerFile.get? 0) ∧
    (∀ n : Nat, (stepN instructions labels n).registerFile.get? 0 = some 0) ∧
    (∀ s : SimState, getValue s (some 0) = 0) := by
  have h1 : ∀ s : SimState, (clockTick instructions labels s).registerFile.get? 0 =
      s.registerFile.get? 0 := by
    intro s
    by_cases hf : isFinished instructions s
    · simp [clockTick, hf]
    · rcases hmi : s.pmem.instr with _ | i
      · simp [clockTick, hf, hmi]
      · rcases hrd : i.rd with _ | rd
        · simp [clockTick, hf, hmi, hrd]
        · rcases hres : s.pmem.result with _ | res
          · simp [clockTick, hf, hmi, hrd, hres]
          · by_cases hz : rd = 0
            · simp [clockTick, hf, hmi, hrd, hres, hz]
            · simp [clockTick, hf, hmi, hrd, hres, hz, List.get?_set_ne res _ hz]
  refine ⟨h1, ?_, fun s => rfl⟩
  intro n
  induction n with
  | zero =>
    rw [stepN, Function.iterate_zero_apply]
    decide
  | succ n ih =>
    have hstep : stepN instructions labels (n + 1) =
        clockTick instructions labels (stepN instructions labels n) := by
      simp [stepN, Function.iterate_succ_apply']
    rw [hstep, h1]
    exact ih

end PipelineSim

/-- C10: the `dram_energy_per_access_pj` field of a DVFS profile never
influences the performance/energy model: changing only that field leaves
the whole `results` record — total cycles, latency and total energy for
both paths, speedup, energy-efficiency gain and both throughputs —
unchanged for every instruction mix. -/
theorem c10_dram_no_influence (instructionMix : List (String × ℚ))
    (p : PerfModel.DVFSProfile) (x : ℚ) :
    PerfModel.results { p with dram_energy_per_access_pj := x } instructionMix =
      PerfModel.results p instructionMix := by
  cases p
  rfl
